import Mathlib

/-!
Shallow embedding of the `Notification` key-addressed notification store from
`src/Notification.h` and `src/Notification.cpp`.

Modelling conventions:
* A C string argument `const char* key` is an `Option String`; `none` models a
  null pointer, `some ""` models the empty string (which is a valid map key).
* A `void*` value is a `PtrVal`: the null pointer, a concrete address, or the
  indeterminate value obtained by reading a field no constructor initialized.
* An `int` field that a constructor may leave uninitialized is a `CInt`.
* `mutexInit` models `mutex != nullptr` (whether `xSemaphoreCreateMutex`
  succeeded in the constructor).
* Each single bounded `xSemaphoreTake` attempt is modelled by a `Bool` oracle
  argument `lockOk` (true iff the take returned `pdTRUE` within its budget).
* The polling loops of `consume`, `signal` and `wait` are driven by a finite
  trace of `PollStep`s, one per loop iteration, recording that iteration's
  lock-take outcome and the elapsed tick count `xTaskGetTickCount() - start_time`
  read at the timeout check.  A loop that does not return within the trace
  yields `none` (it is still running); `some r` means the call returned `r`.
* The model is sequential: no other task mutates the map between iterations,
  which is the setting of all the properties considered here.
-/

/-- Model of a C `void*` value: null, a concrete address, or the indeterminate
content of a pointer field that was never initialized. -/
inductive PtrVal
  | null
  | valid (addr : Nat)
  | indet
  deriving DecidableEq

/-- Model of a C `int` field that a constructor may leave uninitialized. -/
inductive CInt
  | val (v : Int)
  | indet
  deriving DecidableEq

/-- One stored entry (`Notification::NotificationItem`, Notification.h lines
18-25).  The `void*` constructor sets `data` and leaves `signal`
uninitialized; the `int` constructor sets `signal` and leaves `data`
uninitialized.  There is no tag discriminating the two variants. -/
structure NotificationItem where
  data : PtrVal
  signal : CInt
  timestamp : Nat
  deriving DecidableEq

/-- `NotificationItem(void* d)`: sets `data` and `timestamp`, leaves `signal`
uninitialized. -/
def NotificationItem.ofData (d : PtrVal) (now : Nat) : NotificationItem :=
  ⟨d, CInt.indet, now⟩

/-- `NotificationItem(int s)`: sets `signal` and `timestamp`, leaves `data`
uninitialized. -/
def NotificationItem.ofSignal (s : Int) (now : Nat) : NotificationItem :=
  ⟨PtrVal.indet, CInt.val s, now⟩

/-- The store state: the `std::map<std::string, NotificationItem>` as an
association list with unique keys, plus whether the mutex was created. -/
structure Notification where
  notifications : List (String × NotificationItem)
  mutexInit : Bool
  deriving DecidableEq

/-- `notifications.find(key)`: first (and, keys being unique, only) binding. -/
def mapFind (m : List (String × NotificationItem)) (k : String) :
    Option NotificationItem :=
  match m with
  | [] => none
  | (k0, it) :: rest => if k0 = k then some it else mapFind rest k

/-- `notifications.erase(it)` for the iterator found under `k`: removes the
binding of `k`.  Keys are unique in a `std::map`, so removing every binding
of `k` coincides with removing the found one. -/
def mapErase (m : List (String × NotificationItem)) (k : String) :
    List (String × NotificationItem) :=
  match m with
  | [] => []
  | (k0, it) :: rest =>
    if k0 = k then mapErase rest k else (k0, it) :: mapErase rest k

/-- One iteration of a polling loop: the outcome of this iteration's
`xSemaphoreTake` attempt, and the elapsed tick count read at the timeout
check of this iteration. -/
structure PollStep where
  lockOk : Bool
  elapsed : Nat
  deriving DecidableEq

/-- `Notification::send(const char* key, void* data)` (Notification.cpp lines
21-44).  Rejects a null mutex or null key, makes one bounded lock attempt,
then erases any existing binding of `key` and emplaces a fresh entry. -/
def Notification.send (st : Notification) (key : Option String) (data : PtrVal)
    (lockOk : Bool) (now : Nat) : Bool × Notification :=
  match key with
  | none => (false, st)
  | some k =>
    if st.mutexInit = false then (false, st)
    else if lockOk = false then (false, st)
    else (true, { st with
      notifications := (k, NotificationItem.ofData data now) ::
        mapErase st.notifications k })

/-- `Notification::send(const char* key, int signal)` (Notification.cpp lines
46-69), the integer-signal overload: same structure as the pointer overload
but stores `NotificationItem(signal)`. -/
def Notification.sendSignal (st : Notification) (key : Option String) (s : Int)
    (lockOk : Bool) (now : Nat) : Bool × Notification :=
  match key with
  | none => (false, st)
  | some k =>
    if st.mutexInit = false then (false, st)
    else if lockOk = false then (false, st)
    else (true, { st with
      notifications := (k, NotificationItem.ofSignal s now) ::
        mapErase st.notifications k })

/-- The `while (true)` loop of `Notification::consume` (Notification.cpp lines
78-102): on a successful lock attempt, look up the key and, if present,
erase it and return its `data` field; otherwise (lock failed or key absent)
return `nullptr` once the elapsed ticks reach the timeout, else sleep and
iterate. -/
def consumeGo (m : List (String × NotificationItem)) (k : String)
    (timeout : Nat) :
    List PollStep → Option (PtrVal × List (String × NotificationItem))
  | [] => none
  | step :: rest =>
    if step.lockOk then
      match mapFind m k with
      | some it => some (it.data, mapErase m k)
      | none =>
        if timeout ≤ step.elapsed then some (PtrVal.null, m)
        else consumeGo m k timeout rest
    else
      if timeout ≤ step.elapsed then some (PtrVal.null, m)
      else consumeGo m k timeout rest

/-- `Notification::consume(const char* key, TickType_t timeout_ticks)`
(Notification.cpp lines 71-105).  Null mutex or null key returns `nullptr`
immediately; otherwise the polling loop runs. -/
def Notification.consume (st : Notification) (key : Option String)
    (timeout : Nat) (steps : List PollStep) : Option (PtrVal × Notification) :=
  match key with
  | none => some (PtrVal.null, st)
  | some k =>
    if st.mutexInit = false then some (PtrVal.null, st)
    else
      match consumeGo st.notifications k timeout steps with
      | none => none
      | some (d, m) => some (d, { st with notifications := m })

/-- The `while (true)` loop of `Notification::signal` (Notification.cpp lines
114-138): same shape as the consume loop, but returns the entry's `signal`
field when found and the sentinel `-1` on timeout. -/
def signalGo (m : List (String × NotificationItem)) (k : String)
    (timeout : Nat) :
    List PollStep → Option (CInt × List (String × NotificationItem))
  | [] => none
  | step :: rest =>
    if step.lockOk then
      match mapFind m k with
      | some it => some (it.signal, mapErase m k)
      | none =>
        if timeout ≤ step.elapsed then some (CInt.val (-1), m)
        else signalGo m k timeout rest
    else
      if timeout ≤ step.elapsed then some (CInt.val (-1), m)
      else signalGo m k timeout rest

/-- `Notification::signal(const char* key, TickType_t timeout_ticks)`
(Notification.cpp lines 107-141).  Null mutex or null key returns `-1`
immediately; otherwise the polling loop runs. -/
def Notification.signal (st : Notification) (key : Option String)
    (timeout : Nat) (steps : List PollStep) : Option (CInt × Notification) :=
  match key with
  | none => some (CInt.val (-1), st)
  | some k =>
    if st.mutexInit = false then some (CInt.val (-1), st)
    else
      match signalGo st.notifications k timeout steps with
      | none => none
      | some (s, m) => some (s, { st with notifications := m })

/-- `Notification::has(const char* key)` (Notification.cpp lines 143-156):
null checks, one bounded lock attempt, raw existence check of the key. -/
def Notification.has (st : Notification) (key : Option String)
    (lockOk : Bool) : Bool :=
  match key with
  | none => false
  | some k =>
    if st.mutexInit = false then false
    else if lockOk = false then false
    else (mapFind st.notifications k).isSome

/-- `Notification::hasSignal(const char* key)` (Notification.cpp lines
158-171): textually the same body as `has` in the source, with no variant
discrimination. -/
def Notification.hasSignal (st : Notification) (key : Option String)
    (lockOk : Bool) : Bool :=
  match key with
  | none => false
  | some k =>
    if st.mutexInit = false then false
    else if lockOk = false then false
    else (mapFind st.notifications k).isSome

/-- `Notification::remove(const char* key)` (Notification.cpp lines 173-193). -/
def Notification.remove (st : Notification) (key : Option String)
    (lockOk : Bool) : Bool × Notification :=
  match key with
  | none => (false, st)
  | some k =>
    if st.mutexInit = false then (false, st)
    else if lockOk = false then (false, st)
    else
      match mapFind st.notifications k with
      | some _ => (true, { st with notifications := mapErase st.notifications k })
      | none => (false, st)

/-- `Notification::clear()` (Notification.cpp lines 195-210). -/
def Notification.clear (st : Notification) (lockOk : Bool) : Notification :=
  if st.mutexInit = false then st
  else if lockOk = false then st
  else { st with notifications := [] }

/-- `Notification::count()` (Notification.cpp lines 212-225). -/
def Notification.count (st : Notification) (lockOk : Bool) : Nat :=
  if st.mutexInit = false then 0
  else if lockOk = false then 0
  else st.notifications.length

/-- The `while (true)` loop of `Notification::wait` (Notification.cpp lines
234-248): each iteration calls `has(key)` (one bounded lock attempt, taken
from the step's oracle), returns true on presence, false once the elapsed
ticks reach the timeout, else sleeps and iterates. -/
def waitGo (st : Notification) (k : String) (timeout : Nat) :
    List PollStep → Option Bool
  | [] => none
  | step :: rest =>
    if st.has (some k) step.lockOk then some true
    else if timeout ≤ step.elapsed then some false
    else waitGo st k timeout rest

/-- `Notification::wait(const char* key, TickType_t timeout_ticks)`
(Notification.cpp lines 227-249).  Note: unlike every other operation,
`wait` checks only the key for null, not the mutex. -/
def Notification.wait (st : Notification) (key : Option String)
    (timeout : Nat) (steps : List PollStep) : Option Bool :=
  match key with
  | none => some false
  | some k => waitGo st k timeout steps

/-! Helper lemmas about the map model. -/

/-- Erasing a key removes every binding of it. -/
theorem mapFind_mapErase (m : List (String × NotificationItem)) (k : String) :
    mapFind (mapErase m k) k = none := by
  induction m with
  | nil => rfl
  | cons e rest ih =>
    obtain ⟨k0, it⟩ := e
    by_cases h : k0 = k
    · simp [mapErase, h, ih]
    · simp [mapErase, mapFind, h, ih]

/-- Erasing a key twice is the same as erasing it once. -/
theorem mapErase_mapErase (m : List (String × NotificationItem)) (k : String) :
    mapErase (mapErase m k) k = mapErase m k := by
  induction m with
  | nil => rfl
  | cons e rest ih =>
    obtain ⟨k0, it⟩ := e
    by_cases h : k0 = k
    · simp [mapErase, h, ih]
    · simp [mapErase, h, ih]

/-- After erasing a key, no binding of it remains. -/
theorem countP_mapErase (m : List (String × NotificationItem)) (k : String) :
    List.countP (fun x => x.1 = k) (mapErase m k) = 0 := by
  induction m with
  | nil => rfl
  | cons e rest ih =>
    obtain ⟨k0, it⟩ := e
    by_cases h : k0 = k
    · simp [mapErase, h, ih]
    · simp [mapErase, List.countP_cons, h, ih]

/-! Claim theorems. -/

/-- C3: for every store state, key argument and lock outcome, `has` and
`hasSignal` return the same boolean: both are the same locked raw existence
check with no discrimination between the pointer and signal variants. -/
theorem C3_has_eq_hasSignal (st : Notification) (key : Option String)
    (lockOk : Bool) : st.has key lockOk = st.hasSignal key lockOk := rfl

/-- C2 evaluation: on the failing input `send("k", 5)` (integer overload)
followed by `consume("k", 0)`, the pointer-returning consume path finds the
signal-created entry, removes it from the map, and returns its uninitialized
`data` field — it does yield a (indeterminate) pointer result instead of
leaving the entry alone or reporting absence. -/
theorem C2_consume_returns_uninitialized_data :
    ((Notification.mk [] true).sendSignal (some "k") 5 true 0).2.consume
        (some "k") 0 [⟨true, 0⟩]
      = some (PtrVal.indet, Notification.mk [] true) := by decide

/-- C4 counterexample: `send` with the empty key on a store with an
initialized mutex is not rejected: it returns true and inserts an entry
under the key `""`, contradicting the claim that an empty key is rejected
without modifying the map. -/
theorem C4_counterexample_empty_key_accepted :
    ((Notification.mk [] true).send (some "") (PtrVal.valid 7) true 3).1 = true ∧
    ((Notification.mk [] true).send (some "") (PtrVal.valid 7) true 3).2.notifications
      = [("", NotificationItem.ofData (PtrVal.valid 7) 3)] := by decide

/-- C4 amended: a null key is rejected immediately by every keyed operation:
the operation returns its failure/absent value with the map unchanged,
uniformly in the lock oracle and the polling trace (so no lock attempt's
outcome is consulted and no blocking occurs).  An empty key is not rejected;
it is treated as an ordinary key (see the counterexample). -/
theorem C4_null_key_rejected (st : Notification) (d : PtrVal) (s : Int)
    (lockOk : Bool) (now t : Nat) (steps : List PollStep) :
    st.send none d lockOk now = (false, st) ∧
    st.sendSignal none s lockOk now = (false, st) ∧
    st.consume none t steps = some (PtrVal.null, st) ∧
    st.signal none t steps = some (CInt.val (-1), st) ∧
    st.has none lockOk = false ∧
    st.hasSignal none lockOk = false ∧
    st.remove none lockOk = (false, st) ∧
    st.wait none t steps = some false :=
  ⟨rfl, rfl, rfl, rfl, rfl, rfl, rfl, rfl⟩

/-- C8: when the single bounded lock attempt fails, `send` (both overloads)
returns false with the store unchanged, and `has`, `remove`, `clear` and
`count` likewise return their failure value with the store unchanged; each
of these operations consumes exactly the one lock-attempt outcome it is
given and performs no internal retry. -/
theorem C8_lock_failure_atomic (st : Notification) (k : String) (d : PtrVal)
    (s : Int) (now : Nat) :
    st.send (some k) d false now = (false, st) ∧
    st.sendSignal (some k) s false now = (false, st) ∧
    st.has (some k) false = false ∧
    st.remove (some k) false = (false, st) ∧
    st.clear false = st ∧
    st.count false = 0 := by
  cases hm : st.mutexInit <;>
    simp [Notification.send, Notification.sendSignal, Notification.has,
      Notification.remove, Notification.clear, Notification.count, hm]

/-- C1: on a store with an initialized mutex, for any non-null key `k` and
payload `p`, a successful `send(k, p)` followed by `consume(k, t)` (any
timeout, first lock attempt successful) returns `p` and removes the entry
for `k`; a second immediate `consume(k, 0)` then returns nullptr. -/
theorem C1_send_then_consume (st : Notification) (k : String) (p : PtrVal)
    (now t e1 e2 : Nat) (hm : st.mutexInit = true) :
    (st.send (some k) p true now).1 = true ∧
    (st.send (some k) p true now).2.consume (some k) t [⟨true, e1⟩]
      = some (p, { st with notifications := mapErase st.notifications k }) ∧
    Notification.consume { st with notifications := mapErase st.notifications k }
        (some k) 0 [⟨true, e2⟩]
      = some (PtrVal.null, { st with notifications := mapErase st.notifications k }) := by
  refine ⟨?_, ?_, ?_⟩ <;>
    simp [Notification.send, Notification.consume, consumeGo, mapFind, hm,
      mapFind_mapErase, mapErase, mapErase_mapErase, NotificationItem.ofData]

/-- C1 witness: the theorem applied at a concrete store, key and payload. -/
theorem C1_send_then_consume_witness :
    ((Notification.mk [] true).send (some "k") (PtrVal.valid 7) true 0).2.consume
        (some "k") 5 [⟨true, 0⟩]
      = some (PtrVal.valid 7,
          { Notification.mk [] true with
            notifications := mapErase (Notification.mk [] true).notifications "k" }) :=
  (C1_send_then_consume (Notification.mk [] true) "k" (PtrVal.valid 7) 0 5 0 0 rfl).2.1

/-- C7: two successful sends to the same key with no intervening consume
leave exactly one binding for the key, holding a freshly constructed entry
with the second payload (the first entry was erased, then a new one
inserted — no merge), and a subsequent consume retrieves the second
payload. -/
theorem C7_resend_replaces (st : Notification) (k : String) (p1 p2 : PtrVal)
    (n1 n2 t e : Nat) (hm : st.mutexInit = true) :
    ((st.send (some k) p1 true n1).2.send (some k) p2 true n2).2.notifications
      = (k, NotificationItem.ofData p2 n2) :: mapErase st.notifications k ∧
    List.countP (fun x => x.1 = k)
        ((st.send (some k) p1 true n1).2.send (some k) p2 true n2).2.notifications
      = 1 ∧
    ((st.send (some k) p1 true n1).2.send (some k) p2 true n2).2.consume
        (some k) t [⟨true, e⟩]
      = some (p2, { st with notifications := mapErase st.notifications k }) := by
  refine ⟨?_, ?_, ?_⟩ <;>
    simp [Notification.send, Notification.consume, consumeGo, mapFind, hm,
      mapErase, mapErase_mapErase, List.countP_cons, countP_mapErase,
      NotificationItem.ofData]

/-- C7 witness: the theorem applied at a concrete store holding a prior
entry under the key. -/
theorem C7_resend_replaces_witness :
    (((Notification.mk [("k", NotificationItem.ofData (PtrVal.valid 1) 0)] true).send
        (some "k") (PtrVal.valid 2) true 1).2.send (some "k") (PtrVal.valid 3) true 2).2.notifications
      = ("k", NotificationItem.ofData (PtrVal.valid 3) 2) ::
          mapErase (Notification.mk [("k", NotificationItem.ofData (PtrVal.valid 1) 0)] true).notifications "k" :=
  (C7_resend_replaces
      (Notification.mk [("k", NotificationItem.ofData (PtrVal.valid 1) 0)] true)
      "k" (PtrVal.valid 2) (PtrVal.valid 3) 1 2 9 0 rfl).1

/-- C10: sending a null payload succeeds and stores an entry whose `data` is
the null pointer; consuming it returns nullptr and removes the entry —
the same return value `consume` produces for an absent key with timeout 0,
so a stored null payload is indistinguishable from absence at the interface
even though the map state differs (entry removed vs. untouched). -/
theorem C10_null_payload_indistinguishable (st st2 : Notification) (k : String)
    (now t e1 e2 : Nat) (hm : st.mutexInit = true) (hm2 : st2.mutexInit = true)
    (habs : mapFind st2.notifications k = none) :
    (st.send (some k) PtrVal.null true now).1 = true ∧
    mapFind (st.send (some k) PtrVal.null true now).2.notifications k
      = some (NotificationItem.ofData PtrVal.null now) ∧
    (st.send (some k) PtrVal.null true now).2.consume (some k) t [⟨true, e1⟩]
      = some (PtrVal.null, { st with notifications := mapErase st.notifications k }) ∧
    st2.consume (some k) 0 [⟨true, e2⟩] = some (PtrVal.null, st2) := by
  refine ⟨?_, ?_, ?_, ?_⟩ <;>
    simp [Notification.send, Notification.consume, consumeGo, mapFind, hm, hm2,
      habs, mapErase, mapErase_mapErase, NotificationItem.ofData]
  rw [← hm2]

/-- C10 witness: the theorem applied at concrete stores. -/
theorem C10_null_payload_indistinguishable_witness :
    ((Notification.mk [] true).send (some "k") PtrVal.null true 4).2.consume
        (some "k") 5 [⟨true, 0⟩]
      = some (PtrVal.null,
          { Notification.mk [] true with
            notifications := mapErase (Notification.mk [] true).notifications "k" }) :=
  (C10_null_payload_indistinguishable (Notification.mk [] true)
      (Notification.mk [] true) "k" 4 5 0 0 rfl rfl rfl).2.2.1

/-- While the key is absent, the consume loop does not return before an
iteration observes an elapsed time reaching the timeout. -/
theorem consumeGo_absent_lt (m : List (String × NotificationItem)) (k : String)
    (t : Nat) (habs : mapFind m k = none) :
    ∀ steps : List PollStep, (∀ step ∈ steps, step.elapsed < t) →
      consumeGo m k t steps = none := by
  intro steps
  induction steps with
  | nil => intro h; rfl
  | cons step rest ih =>
    intro h
    have h1 : ¬ t ≤ step.elapsed := not_le.mpr (h step (List.mem_cons_self step rest))
    have hrest := ih (fun s hs => h s (List.mem_cons_of_mem step hs))
    cases hl : step.lockOk <;> simp [consumeGo, hl, habs, h1, hrest]

/-- While the key is absent, the consume loop returns nullptr with the map
untouched as soon as an iteration observes an elapsed time reaching the
timeout. -/
theorem consumeGo_absent_ge (m : List (String × NotificationItem)) (k : String)
    (t : Nat) (habs : mapFind m k = none) :
    ∀ steps : List PollStep, (∃ step ∈ steps, t ≤ step.elapsed) →
      consumeGo m k t steps = some (PtrVal.null, m) := by
  intro steps
  induction steps with
  | nil => intro h; simp at h
  | cons step rest ih =>
    intro h
    by_cases h2 : t ≤ step.elapsed
    · cases hl : step.lockOk <;> simp [consumeGo, hl, habs, h2]
    · have hrest : ∃ s ∈ rest, t ≤ s.elapsed := by
        obtain ⟨s, hs, hts⟩ := h
        rcases List.mem_cons.mp hs with h3 | h3
        · exact absurd (h3 ▸ hts) h2
        · exact ⟨s, h3, hts⟩
      cases hl : step.lockOk <;> simp [consumeGo, hl, habs, h2, ih hrest]

/-- When `has` is constantly false, the wait loop returns false as soon as an
iteration observes an elapsed time reaching the timeout. -/
theorem waitGo_reaches (st : Notification) (k : String) (t : Nat)
    (hhas : ∀ b, st.has (some k) b = false) :
    ∀ steps : List PollStep, (∃ step ∈ steps, t ≤ step.elapsed) →
      waitGo st k t steps = some false := by
  intro steps
  induction steps with
  | nil => intro h; simp at h
  | cons step rest ih =>
    intro h
    by_cases h2 : t ≤ step.elapsed
    · simp [waitGo, hhas, h2]
    · have hrest : ∃ s ∈ rest, t ≤ s.elapsed := by
        obtain ⟨s, hs, hts⟩ := h
        rcases List.mem_cons.mp hs with h3 | h3
        · exact absurd (h3 ▸ hts) h2
        · exact ⟨s, h3, hts⟩
      simp [waitGo, hhas, h2, ih hrest]

/-- C5: with an uninitialized mutex, every operation fails closed, returning
its failure/absent value (false, nullptr, -1 or 0) and leaving the map
untouched; in particular `wait` — which never consults the mutex — returns
false for every key and timeout once its polling trace reaches the
deadline. -/
theorem C5_fail_closed (st : Notification) (k : String) (d : PtrVal) (s : Int)
    (lockOk : Bool) (now t : Nat) (steps : List PollStep)
    (hm : st.mutexInit = false) (hreach : ∃ step ∈ steps, t ≤ step.elapsed) :
    st.send (some k) d lockOk now = (false, st) ∧
    st.sendSignal (some k) s lockOk now = (false, st) ∧
    st.consume (some k) t steps = some (PtrVal.null, st) ∧
    st.signal (some k) t steps = some (CInt.val (-1), st) ∧
    st.has (some k) lockOk = false ∧
    st.hasSignal (some k) lockOk = false ∧
    st.remove (some k) lockOk = (false, st) ∧
    st.clear lockOk = st ∧
    st.count lockOk = 0 ∧
    st.wait (some k) t steps = some false := by
  refine ⟨?_, ?_, ?_, ?_, ?_, ?_, ?_, ?_, ?_, ?_⟩
  · simp [Notification.send, hm]
  · simp [Notification.sendSignal, hm]
  · simp [Notification.consume, hm]
  · simp [Notification.signal, hm]
  · simp [Notification.has, hm]
  · simp [Notification.hasSignal, hm]
  · simp [Notification.remove, hm]
  · simp [Notification.clear, hm]
  · simp [Notification.count, hm]
  · simpa [Notification.wait] using
      waitGo_reaches st k t (fun b => by simp [Notification.has, hm]) steps hreach

/-- C5 witness: the theorem applied at a concrete failed-construction store
with a nonempty map and a trace reaching the deadline. -/
theorem C5_fail_closed_witness :
    (Notification.mk [("a", NotificationItem.ofData PtrVal.null 0)] false).wait
        (some "a") 3 [⟨true, 5⟩] = some false :=
  (C5_fail_closed (Notification.mk [("a", NotificationItem.ofData PtrVal.null 0)] false)
      "a" PtrVal.null 0 true 0 3 [⟨true, 5⟩] rfl
      (by decide)).2.2.2.2.2.2.2.2.2

/-- C9: on a store with an initialized mutex and a key that is absent (and,
the model being sequential, never sent), `consume(k, T)` does not return
while every polling iteration still observes an elapsed time below `T`, and
it returns nullptr with the store unchanged as soon as an iteration observes
an elapsed time of at least `T`. -/
theorem C9_consume_absent_timeout (st : Notification) (k : String) (t : Nat)
    (steps : List PollStep) (hm : st.mutexInit = true)
    (habs : mapFind st.notifications k = none) :
    ((∀ step ∈ steps, step.elapsed < t) → st.consume (some k) t steps = none) ∧
    ((∃ step ∈ steps, t ≤ step.elapsed) →
      st.consume (some k) t steps = some (PtrVal.null, st)) := by
  obtain ⟨m0, mu⟩ := st
  cases mu
  · exact absurd hm (by simp)
  · constructor
    · intro h
      simp [Notification.consume, consumeGo_absent_lt m0 k t habs steps h]
    · intro h
      simp [Notification.consume, consumeGo_absent_ge m0 k t habs steps h]

/-- C9 witness: the theorem applied at a concrete store, absent key and a
trace whose third iteration reaches the deadline. -/
theorem C9_consume_absent_timeout_witness :
    (Notification.mk [("other", NotificationItem.ofData (PtrVal.valid 3) 0)] true).consume
        (some "k") 2 [⟨true, 0⟩, ⟨false, 1⟩, ⟨true, 2⟩]
      = some (PtrVal.null,
          Notification.mk [("other", NotificationItem.ofData (PtrVal.valid 3) 0)] true) :=
  (C9_consume_absent_timeout
      (Notification.mk [("other", NotificationItem.ofData (PtrVal.valid 3) 0)] true)
      "k" 2 [⟨true, 0⟩, ⟨false, 1⟩, ⟨true, 2⟩] rfl (by decide)).2 (by decide)

/-- C6 counterexample: the sentinel `-1` is not out-of-band.  Storing the
legitimate signal value `-1` via the integer send and then calling `signal`
returns exactly the same result as calling `signal` on an absent key with
timeout 0: both yield `-1`, so the absent outcome is not distinguishable
from the stored value `-1`. -/
theorem C6_counterexample_sentinel_storable :
    ((Notification.mk [] true).sendSignal (some "k") (-1) true 0).2.signal
        (some "k") 9 [⟨true, 2⟩]
      = some (CInt.val (-1), Notification.mk [] true) ∧
    (Notification.mk [] true).signal (some "k") 0 [⟨true, 2⟩]
      = some (CInt.val (-1), Notification.mk [] true) := by decide

/-- C6 amended: `signal` encodes the absent/timeout outcome as the fixed
sentinel `-1`.  This sentinel is in-band: a stored signal value `v` is
returned as `v` itself, so the absent outcome is distinguishable from every
storable value except `-1` (which collides with the sentinel, as the
counterexample shows). -/
theorem C6_sentinel_minus_one (st : Notification) (k : String) (v : Int)
    (now t1 t2 e1 e2 : Nat) (hm : st.mutexInit = true)
    (habs : mapFind st.notifications k = none) (hte : t1 ≤ e1) :
    st.signal (some k) t1 [⟨true, e1⟩] = some (CInt.val (-1), st) ∧
    ((st.sendSignal (some k) v true now).2).signal (some k) t2 [⟨true, e2⟩]
      = some (CInt.val v, { st with notifications := mapErase st.notifications k }) ∧
    (v ≠ -1 → CInt.val v ≠ CInt.val (-1)) := by
  obtain ⟨m0, mu⟩ := st
  cases mu
  · exact absurd hm (by simp)
  · refine ⟨?_, ?_, ?_⟩
    · simp [Notification.signal, signalGo, habs, hte]
    · simp [Notification.sendSignal, Notification.signal, signalGo, mapFind,
        mapErase, mapErase_mapErase, NotificationItem.ofSignal]
    · intro hv
      simpa using hv

/-- C6 witness: the amended theorem applied at a concrete store and values. -/
theorem C6_sentinel_minus_one_witness :
    (Notification.mk [] true).signal (some "k") 3 [⟨true, 4⟩]
      = some (CInt.val (-1), Notification.mk [] true) :=
  (C6_sentinel_minus_one (Notification.mk [] true) "k" 5 0 3 7 4 0 rfl rfl
      (by decide)).1
